import Mathlib

/-!
Verification model of the qr-max/server-monitor edge gateway.

The repository's gateway is an Express application (two variants:
`src/unnamed/part_001` and `src/server-monitor/frontend/server.js`) that
registers, in order: `cors()`, `express.static(__dirname)`, an `/api`
reverse proxy (`http-proxy-middleware`), an explicit `GET /` index route,
and a `GET /health` probe returning
`{status:"ok", service:"frontend", timestamp:new Date().toISOString()}`.

This file gives a shallow embedding of that gateway: the routing pipeline
in registration order, the proxy options of both source variants, the
health handler, and an executable model of the platform's
`Date.prototype.toISOString` (proleptic Gregorian calendar, milliseconds
since the Unix epoch, `YYYY-MM-DDTHH:MM:SS.sssZ`).
-/

/-! ## Calendar model for `Date.prototype.toISOString`

`new Date().toISOString()` renders the clock reading (milliseconds since
1970-01-01T00:00:00Z) in the proleptic Gregorian calendar.  The civil-date
conversion below is the standard era-based algorithm (146097-day
400-year eras), modelled for the years 1970–9999, i.e. for clock readings
below 253402300800000 ms, where the format is the fixed-width 24-character
form. -/

/-- Year-of-era extraction used by `civilFromDays`. -/
def gfun (doe : Nat) : Nat := doe - doe / 1460 + doe / 36524 - doe / 146096

/-- Year of era (0–399) of a day-of-era (0–146096). -/
def yoeOf (doe : Nat) : Nat := gfun doe / 365

/-- Day-of-era on which year-of-era `yoe` starts (March-based years). -/
def dstart (yoe : Nat) : Nat := 365 * yoe + yoe / 4 - yoe / 100

/-- Civil date (year, month, day) of a day count since 1970-01-01. -/
def civilFromDays (z : Nat) : Nat × Nat × Nat :=
  let z2 := z + 719468
  let era := z2 / 146097
  let doe := z2 % 146097
  let yoe := yoeOf doe
  let y := yoe + era * 400
  let doy := doe - dstart yoe
  let mp := (5 * doy + 2) / 153
  let d := doy - (153 * mp + 2) / 5 + 1
  let m := if mp < 10 then mp + 3 else mp - 9
  (if m ≤ 2 then y + 1 else y, m, d)

/-- Day count since 1970-01-01 of a civil date (year, month, day). -/
def daysFromCivil (y m d : Nat) : Nat :=
  let y2 := if m ≤ 2 then y - 1 else y
  let era := y2 / 400
  let yoe := y2 - era * 400
  let doy := (153 * (if 2 < m then m - 3 else m + 9) + 2) / 5 + d - 1
  let doe := yoe * 365 + yoe / 4 - yoe / 100 + doy
  era * 146097 + doe - 719468

/-- Per-year consistency of the year-of-era formula, checked at both ends
of the year's day interval. -/
def goodYear (y : Nat) : Bool :=
  decide (yoeOf (dstart y) = y ∧ yoeOf (dstart (y + 1) - 1) = y)

/-- Binary-splitting bounded checker: `chkRange fuel lo n` checks
`goodYear` on the interval `[lo, lo + n)`. -/
def chkRange : Nat → Nat → Nat → Bool
  | 0, _, n => decide (n = 0)
  | fuel + 1, lo, n =>
    if n = 0 then true
    else if n = 1 then goodYear lo
    else chkRange fuel lo (n / 2) && chkRange fuel (lo + n / 2) (n - n / 2)

/-! ## ISO-8601 rendering (`YYYY-MM-DDTHH:MM:SS.sssZ`) -/

/-- Decimal digit character for `n % 10`. -/
def digitChar (n : Nat) : Char := Char.ofNat (48 + n % 10)

/-- Numeric value of a digit character. -/
def digitVal (c : Char) : Nat := c.toNat - 48

/-- Whether a character is a decimal digit. -/
def isDigitChar (c : Char) : Bool := decide (48 ≤ c.toNat ∧ c.toNat ≤ 57)

/-- Two-digit zero-padded decimal rendering (of `n % 100`). -/
def pad2 (n : Nat) : List Char := [digitChar (n / 10), digitChar n]

/-- Three-digit zero-padded decimal rendering (of `n % 1000`). -/
def pad3 (n : Nat) : List Char := [digitChar (n / 100), digitChar (n / 10), digitChar n]

/-- Four-digit zero-padded decimal rendering (of `n % 10000`). -/
def pad4 (n : Nat) : List Char :=
  [digitChar (n / 1000), digitChar (n / 100), digitChar (n / 10), digitChar n]

/-- Model of `Date.prototype.toISOString` on a clock reading `t` in
milliseconds since the Unix epoch, for the fixed-width years 1970–9999:
`YYYY-MM-DDTHH:MM:SS.sssZ`. -/
def toISOString (t : Nat) : String :=
  let c := civilFromDays (t / 86400000)
  String.mk (pad4 c.1 ++ '-' :: pad2 c.2.1 ++ '-' :: pad2 c.2.2 ++
    'T' :: pad2 (t / 3600000 % 24) ++ ':' :: pad2 (t / 60000 % 60) ++
    ':' :: pad2 (t / 1000 % 60) ++ '.' :: pad3 (t % 1000) ++ ['Z'])

/-- Parser and validity checker for the 24-character ISO-8601 date-time
format: returns the represented clock reading (milliseconds since the
epoch) when the string is well-formed and its fields are in range. -/
def isoParse (str : String) : Option Nat :=
  match str.data with
  | [y3, y2, y1, y0, w1, b1, b0, w2, a1, a0, wT, e1, e0, w3, f1, f0, w4, g1, g0, w5, x2, x1, x0, w6] =>
    if w1 = '-' ∧ w2 = '-' ∧ wT = 'T' ∧ w3 = ':' ∧ w4 = ':' ∧ w5 = '.' ∧ w6 = 'Z' ∧
       isDigitChar y3 = true ∧ isDigitChar y2 = true ∧ isDigitChar y1 = true ∧
       isDigitChar y0 = true ∧ isDigitChar b1 = true ∧ isDigitChar b0 = true ∧
       isDigitChar a1 = true ∧ isDigitChar a0 = true ∧ isDigitChar e1 = true ∧
       isDigitChar e0 = true ∧ isDigitChar f1 = true ∧ isDigitChar f0 = true ∧
       isDigitChar g1 = true ∧ isDigitChar g0 = true ∧ isDigitChar x2 = true ∧
       isDigitChar x1 = true ∧ isDigitChar x0 = true then
      let y := 1000 * digitVal y3 + 100 * digitVal y2 + 10 * digitVal y1 + digitVal y0
      let mo := 10 * digitVal b1 + digitVal b0
      let d := 10 * digitVal a1 + digitVal a0
      let hh := 10 * digitVal e1 + digitVal e0
      let mi := 10 * digitVal f1 + digitVal f0
      let ss := 10 * digitVal g1 + digitVal g0
      let ms := 100 * digitVal x2 + 10 * digitVal x1 + digitVal x0
      if 1 ≤ mo ∧ mo ≤ 12 ∧ 1 ≤ d ∧ d ≤ 31 ∧ hh ≤ 23 ∧ mi ≤ 59 ∧ ss ≤ 59 then
        some (daysFromCivil y mo d * 86400000 + hh * 3600000 + mi * 60000 + ss * 1000 + ms)
      else none
    else none
  | _ => none

/-! ## Gateway model

Shallow embedding of the Express pipeline of the two gateway variants
(`src/unnamed/part_001` and `src/server-monitor/frontend/server.js`).
Both register, in this order: `cors()`, `express.static(__dirname)`,
`app.use('/api', createProxyMiddleware(...))`, `app.get('/')`,
`app.get('/health')`; an unmatched request falls through to Express's
default 404 handler. -/

/-- An inbound HTTP request, as far as the gateway inspects it. -/
structure Request where
  method : String
  path : String
  host : String
  headers : List (String × String)
  body : String
  deriving DecidableEq

/-- Response bodies: raw text (static files, default error pages) or a
flat JSON object with string values, which is all this gateway emits. -/
inductive Json where
  | text (s : String)
  | obj (fields : List (String × String))
  deriving DecidableEq

/-- An HTTP response. -/
structure Response where
  status : Nat
  headers : List (String × String)
  body : Json
  deriving DecidableEq

/-- First-match lookup of a name in an association list (file table of the
asset root, environment, JSON object fields). -/
def lookupFile (files : List (String × String)) (name : String) : Option String :=
  match files with
  | [] => none
  | (n, c) :: rest => if n = name then some c else lookupFile rest name

/-- Model of `express.static(path.join(__dirname))`: for GET/HEAD
requests, resolve the URL path against the asset root, serving the
default index document `index.html` for the root path; otherwise fall
through. -/
def staticLookup (files : List (String × String)) (method p : String) : Option String :=
  if method = "GET" ∨ method = "HEAD" then
    if p = "/" then lookupFile files "index.html"
    else lookupFile files (String.mk (p.data.drop 1))
  else none

/-- Whether `pre` is an initial run of `s`. -/
def leadsWith : List Char → List Char → Bool
  | [], _ => true
  | _ :: _, [] => false
  | a :: as, b :: bs => (a == b) && leadsWith as bs

/-- Express mount matching for `app.use('/api', ...)`: the mount matches
the path `/api` itself and any path continuing with a `/`-separated
remainder. -/
def isApiPath (p : String) : Bool :=
  p == "/api" || leadsWith "/api/".data p.data

/-- Which registered handler ends up answering a request. -/
inductive Routed where
  | staticFile (content : String)
  | proxy
  | indexPage
  | health
  | notFound
  deriving DecidableEq

/-- The routing decision of the Express pipeline, in registration order:
static middleware first, then the `/api` proxy mount, then the explicit
`/` route, then the `/health` route, then the default 404. -/
def route (files : List (String × String)) (method p : String) : Routed :=
  match staticLookup files method p with
  | some c => Routed.staticFile c
  | none =>
    if isApiPath p then Routed.proxy
    else if method = "GET" ∧ p = "/" then Routed.indexPage
    else if method = "GET" ∧ p = "/health" then Routed.health
    else Routed.notFound

/-- The `createProxyMiddleware` options the gateway passes, as far as
behavior is concerned: upstream target, `changeOrigin`, the response an
`onError` callback writes (when one is registered), and `timeout`. -/
structure ProxyOptions where
  target : String
  changeOrigin : Bool
  onError : Option Response
  timeoutMs : Option Nat
  deriving DecidableEq

/-- Transport-level behavior of the upstream on one proxied request:
a reply, a connection-level failure (refusal/reset), or no answer at
all. -/
inductive Upstream where
  | replies (r : Response)
  | refuses
  | silent
  deriving DecidableEq

/-- The response written by the custom `onError` callback of
`src/unnamed/part_001`: `res.status(500).json({ error: '后端服务连接失败' })`. -/
def proxyErrorResponse : Response :=
  { status := 500, headers := [("Content-Type", "application/json")],
    body := Json.obj [("error", "后端服务连接失败")] }

/-- The http-proxy-middleware v2 default error handler, used when no
`onError` is registered: for connection-level errors it writes a 504
with the plain-text body `Error occurred while trying to proxy`. -/
def defaultProxyError : Response :=
  { status := 504, headers := [], body := Json.text "Error occurred while trying to proxy" }

/-- What becomes of the client connection on one `/api` request: an HTTP
response is written, or the incoming socket is destroyed without any
response, or the request hangs forever. -/
inductive ProxyOutcome where
  | answered (r : Response)
  | connectionDestroyed
  | hang
  deriving DecidableEq

/-- Outcome of the proxy middleware on one `/api` request as a function
of the upstream behavior.  A connection-level failure to reach the
upstream (refusal/reset) invokes the error path: the registered
`onError` callback, or the library's default handler when none is
registered.  http-proxy's `timeout` option only sets the incoming
socket's idle timeout: when a silent upstream lets it expire, the
client connection is destroyed without the error path ever running (an
upstream-call bound would require `proxyTimeout`, which neither gateway
variant sets); without `timeout` the request hangs forever. -/
def proxyResult (opts : ProxyOptions) (u : Upstream) : ProxyOutcome :=
  match u with
  | Upstream.replies r => ProxyOutcome.answered r
  | Upstream.refuses => ProxyOutcome.answered (opts.onError.getD defaultProxyError)
  | Upstream.silent =>
    match opts.timeoutMs with
    | some _ => ProxyOutcome.connectionDestroyed
    | none => ProxyOutcome.hang

/-- Environment variable lookup. -/
def envLookup (env : List (String × String)) (k : String) : Option String :=
  lookupFile env k

/-- Upstream target of `src/unnamed/part_001`:
`process.env.BACKEND_URL || 'http://192.168.211.149:5000'`. -/
def part001Target (env : List (String × String)) : String :=
  (envLookup env "BACKEND_URL").getD "http://192.168.211.149:5000"

/-- Proxy options registered by `src/unnamed/part_001`: environment-driven
target, `changeOrigin: true`, a custom `onError` writing 500 + JSON, and
`timeout: 10000`. -/
def part001Proxy (env : List (String × String)) : ProxyOptions :=
  { target := part001Target env, changeOrigin := true,
    onError := some proxyErrorResponse, timeoutMs := some 10000 }

/-- Upstream target hardcoded by `src/server-monitor/frontend/server.js`:
`http://backend:5000`. -/
def serverJsTarget : String := "http://backend:5000"

/-- Proxy options registered by `src/server-monitor/frontend/server.js`:
hardcoded target, `changeOrigin: true`, no `onError`, no `timeout`. -/
def serverJsProxy : ProxyOptions :=
  { target := serverJsTarget, changeOrigin := true,
    onError := none, timeoutMs := none }

/-- The `pathRewrite: { '^/api': '/api' }` rule of both variants: a
leading `/api` is replaced by `/api`. -/
def applyPathRewrite (p : String) : String :=
  if leadsWith "/api".data p.data then String.mk ("/api".data ++ p.data.drop 4) else p

/-- Origin host of a target URL (scheme stripped). -/
def targetHost (url : String) : String :=
  if leadsWith "http://".data url.data then String.mk (url.data.drop 7) else url

/-- The request the proxy sends to the upstream: same method, headers and
body; the path passed through `pathRewrite` (applied to the original
mount-inclusive URL); the Host header rewritten to the upstream origin
when `changeOrigin` is set. -/
def forwardRequest (opts : ProxyOptions) (req : Request) : Request :=
  { req with
    path := applyPathRewrite req.path,
    host := if opts.changeOrigin then targetHost opts.target else req.host }

/-- Model of `app.use(cors())` with no options: every response carries
the permissive `Access-Control-Allow-Origin: *` header. -/
def corsify (r : Response) : Response :=
  { r with headers := ("Access-Control-Allow-Origin", "*") :: r.headers }

/-- Body written by the `GET /health` handler of both variants:
`{ status: 'ok', service: 'frontend', timestamp: new Date().toISOString() }`. -/
def healthBody (now : Nat) : Json :=
  Json.obj [("status", "ok"), ("service", "frontend"), ("timestamp", toISOString now)]

/-- The `GET /health` response (`res.json` sends 200 by default). -/
def healthResponse (now : Nat) : Response :=
  { status := 200, headers := [("Content-Type", "application/json")], body := healthBody now }

/-- Full gateway behavior on one request: the routing decision of the
pipeline followed by the matched handler's response, with the cors
header applied to whatever is written. `none` models a request to which
no HTTP response is ever written (hung, or connection destroyed). `now`
is the clock reading (ms since the epoch) at handling time; `u` is the
upstream's behavior if the proxy is reached. -/
def handle (opts : ProxyOptions) (files : List (String × String)) (req : Request)
    (now : Nat) (u : Upstream) : Option Response :=
  match route files req.method req.path with
  | Routed.staticFile c =>
    some (corsify { status := 200, headers := [], body := Json.text c })
  | Routed.proxy =>
    match proxyResult opts u with
    | ProxyOutcome.answered r => some (corsify r)
    | ProxyOutcome.connectionDestroyed => none
    | ProxyOutcome.hang => none
  | Routed.indexPage =>
    match lookupFile files "index.html" with
    | some c => some (corsify { status := 200, headers := [], body := Json.text c })
    | none => some (corsify { status := 404, headers := [], body := Json.text "not found" })
  | Routed.health => some (corsify (healthResponse now))
  | Routed.notFound =>
    some (corsify { status := 404, headers := [], body := Json.text "Cannot GET" })

/-- Startup configuration, read once from the process environment. -/
structure Config where
  port : String
  backendUrl : String
  deriving DecidableEq

/-- `const PORT = process.env.PORT || 3000` and the upstream target of
`src/unnamed/part_001`, resolved once at startup. -/
def mkConfig (env : List (String × String)) : Config :=
  { port := (envLookup env "PORT").getD "3000", backendUrl := part001Target env }

/-- Proxy options as a function of the startup configuration
(`src/unnamed/part_001` shape). -/
def proxyOfConfig (c : Config) : ProxyOptions :=
  { target := c.backendUrl, changeOrigin := true,
    onError := some proxyErrorResponse, timeoutMs := some 10000 }

/-- Everything the running gateway holds between requests: the startup
configuration and the (read-only) asset root. -/
structure GatewayState where
  config : Config
  files : List (String × String)
  deriving DecidableEq

/-- One request-handling step of the running gateway: the response
written and the state afterwards. -/
def gatewayStep (st : GatewayState) (req : Request) (now : Nat) (u : Upstream) :
    Option Response × GatewayState :=
  (handle (proxyOfConfig st.config) st.files req now u, st)

/-- The asset root contents of the deployed image: the Dockerfile copies
`package.json`, `server.js` and `index.html` into the directory that
`__dirname` points at. -/
def deployedFiles (pj sjs ih : String) : List (String × String) :=
  [("package.json", pj), ("server.js", sjs), ("index.html", ih)]

/-- Value of a field of a flat JSON object body. -/
def jsonField (j : Json) (k : String) : Option String :=
  match j with
  | Json.text _ => none
  | Json.obj fs => lookupFile fs k

/-- A sample `/api` request used as a concrete instantiation. -/
def apiStatusRequest : Request :=
  { method := "GET", path := "/api/status", host := "gateway", headers := [], body := "" }

/-- A sample `/health` request used as a concrete instantiation. -/
def healthRequest : Request :=
  { method := "GET", path := "/health", host := "gateway", headers := [], body := "" }

/-! ## Calendar and ISO-8601 theorems -/

theorem chkRange_sound (fuel : Nat) : ∀ lo n, chkRange fuel lo n = true →
    ∀ i, i < n → goodYear (lo + i) = true := by
  induction fuel with
  | zero =>
    intro lo n h i hi
    simp only [chkRange, decide_eq_true_eq] at h
    omega
  | succ fuel ih =>
    intro lo n h i hi
    simp only [chkRange] at h
    by_cases h0 : n = 0
    · omega
    · by_cases h1 : n = 1
      · subst h1
        simp only [if_neg h0, if_pos rfl] at h
        have hz : i = 0 := by omega
        subst hz
        simpa using h
      · simp only [if_neg h0, if_neg h1, Bool.and_eq_true] at h
        by_cases hlt : i < n / 2
        · exact ih lo (n / 2) h.1 i hlt
        · have hr := ih (lo + n / 2) (n - n / 2) h.2 (i - n / 2) (by omega)
          have harith : lo + n / 2 + (i - n / 2) = lo + i := by omega
          rwa [harith] at hr

set_option maxHeartbeats 1000000 in
theorem goodYear_all (y : Nat) (h : y < 400) : goodYear y = true := by
  have hchk : chkRange 10 0 400 = true := by decide
  have hy := chkRange_sound 10 0 400 hchk y h
  simpa using hy

theorem gfun_step (d : Nat) (h : d + 1 ≤ 146096) : gfun d ≤ gfun (d + 1) := by
  unfold gfun
  omega

theorem gfun_mono (a b : Nat) (hab : a ≤ b) (hb : b ≤ 146096) : gfun a ≤ gfun b := by
  induction b with
  | zero =>
    have haz : a = 0 := by omega
    subst haz
    exact Nat.le_refl _
  | succ b ih =>
    rcases Nat.lt_or_ge a (b + 1) with hlt | hge
    · exact Nat.le_trans (ih (by omega) (by omega)) (gfun_step b hb)
    · have haz : a = b + 1 := by omega
      subst haz
      exact Nat.le_refl _

theorem yoeOf_mono (a b : Nat) (hab : a ≤ b) (hb : b ≤ 146096) : yoeOf a ≤ yoeOf b :=
  Nat.div_le_div_right (gfun_mono a b hab hb)

theorem dstart_succ (y : Nat) :
    dstart y + 364 ≤ dstart (y + 1) ∧ dstart (y + 1) ≤ dstart y + 366 := by
  unfold dstart
  omega

theorem dstart_mono (a b : Nat) (hab : a ≤ b) : dstart a ≤ dstart b := by
  induction b with
  | zero =>
    have haz : a = 0 := by omega
    subst haz
    exact Nat.le_refl _
  | succ b ih =>
    rcases Nat.lt_or_ge a (b + 1) with hlt | hge
    · exact Nat.le_trans (ih (by omega)) (by have := dstart_succ b; omega)
    · have haz : a = b + 1 := by omega
      subst haz
      exact Nat.le_refl _

theorem dstart_400 : dstart 400 = 146096 := by decide

theorem dstart_zero : dstart 0 = 0 := by decide

theorem dstart_one : dstart 1 = 365 := by decide

theorem year_cover (doe : Nat) (h : doe < 146096) :
    ∃ y, y < 400 ∧ dstart y ≤ doe ∧ doe < dstart (y + 1) := by
  induction doe with
  | zero =>
    refine ⟨0, by omega, Nat.le_of_eq dstart_zero, ?_⟩
    rw [dstart_one]
    omega
  | succ doe ih =>
    obtain ⟨y, hy, hlo, hhi⟩ := ih (by omega)
    rcases Nat.lt_or_ge (doe + 1) (dstart (y + 1)) with hlt | hge
    · exact ⟨y, hy, by omega, hlt⟩
    · have hy400 : y + 1 < 400 := by
        by_contra hcon
        have he : y + 1 = 400 := by omega
        rw [he] at hge
        rw [dstart_400] at hge
        omega
      have hstep := dstart_succ (y + 1)
      exact ⟨y + 1, hy400, hge, by omega⟩

theorem yoe_facts (doe : Nat) (h : doe < 146097) :
    yoeOf doe ≤ 399 ∧ dstart (yoeOf doe) ≤ doe ∧ doe - dstart (yoeOf doe) ≤ 365 := by
  rcases Nat.lt_or_ge doe 146096 with hlt | hge
  · obtain ⟨y, hy, hlo, hhi⟩ := year_cover doe hlt
    have hmono : dstart (y + 1) ≤ dstart 400 := dstart_mono (y + 1) 400 (by omega)
    rw [dstart_400] at hmono
    have h1 : yoeOf (dstart y) ≤ yoeOf doe :=
      yoeOf_mono (dstart y) doe hlo (by omega)
    have h2 : yoeOf doe ≤ yoeOf (dstart (y + 1) - 1) :=
      yoeOf_mono doe (dstart (y + 1) - 1) (by omega) (by omega)
    have hgy := goodYear_all y hy
    simp only [goodYear, decide_eq_true_eq] at hgy
    have hyoe : yoeOf doe = y := by omega
    rw [hyoe]
    have hd := dstart_succ y
    exact ⟨by omega, hlo, by omega⟩
  · have hdoe : doe = 146096 := by omega
    subst hdoe
    refine ⟨?_, ?_, ?_⟩ <;> decide

set_option maxHeartbeats 1600000 in
theorem daysFromCivil_civilFromDays (z : Nat) :
    daysFromCivil (civilFromDays z).1 (civilFromDays z).2.1 (civilFromDays z).2.2 = z := by
  have hlt : (z + 719468) % 146097 < 146097 := Nat.mod_lt _ (by omega)
  have h := yoe_facts ((z + 719468) % 146097) hlt
  have hsplit := Nat.div_add_mod (z + 719468) 146097
  unfold civilFromDays daysFromCivil
  dsimp only
  generalize hera : (z + 719468) / 146097 = era at hsplit ⊢
  generalize hdoe : (z + 719468) % 146097 = doe at h hsplit hlt ⊢
  generalize hyoe : yoeOf doe = yoe at h ⊢
  simp only [dstart] at h ⊢
  obtain ⟨h1, h2, h3⟩ := h
  generalize hdoy : doe - (365 * yoe + yoe / 4 - yoe / 100) = doy at h3 ⊢
  have hlink : doe = 365 * yoe + yoe / 4 - yoe / 100 + doy := by omega
  by_cases hmp : (5 * doy + 2) / 153 < 10
  · simp only [if_pos hmp]
    have hc1 : ¬((5 * doy + 2) / 153 + 3 ≤ 2) := by omega
    have hc2 : 2 < (5 * doy + 2) / 153 + 3 := by omega
    simp only [if_neg hc1, if_pos hc2]
    have hm1 : (5 * doy + 2) / 153 + 3 - 3 = (5 * doy + 2) / 153 := by omega
    rw [hm1]
    have hA1 : (yoe + era * 400) / 400 = era := by omega
    rw [hA1]
    have hA2 : yoe + era * 400 - era * 400 = yoe := by omega
    rw [hA2]
    omega
  · simp only [if_neg hmp]
    have hmp11 : (5 * doy + 2) / 153 ≤ 11 := by omega
    have hc1 : (5 * doy + 2) / 153 - 9 ≤ 2 := by omega
    have hc2 : ¬(2 < (5 * doy + 2) / 153 - 9) := by omega
    simp only [if_pos hc1, if_neg hc2]
    have hm1 : (5 * doy + 2) / 153 - 9 + 9 = (5 * doy + 2) / 153 := by omega
    rw [hm1]
    have hB : yoe + era * 400 + 1 - 1 = yoe + era * 400 := by omega
    rw [hB]
    have hA1 : (yoe + era * 400) / 400 = era := by omega
    rw [hA1]
    have hA2 : yoe + era * 400 - era * 400 = yoe := by omega
    rw [hA2]
    omega

set_option maxHeartbeats 1600000 in
theorem civilFromDays_range (z : Nat) (hz : z < 2932897) :
    1 ≤ (civilFromDays z).2.1 ∧ (civilFromDays z).2.1 ≤ 12 ∧
    1 ≤ (civilFromDays z).2.2 ∧ (civilFromDays z).2.2 ≤ 31 ∧
    (civilFromDays z).1 ≤ 9999 := by
  have hlt : (z + 719468) % 146097 < 146097 := Nat.mod_lt _ (by omega)
  have h := yoe_facts ((z + 719468) % 146097) hlt
  have hsplit := Nat.div_add_mod (z + 719468) 146097
  unfold civilFromDays
  dsimp only
  generalize hera : (z + 719468) / 146097 = era at hsplit ⊢
  generalize hdoe : (z + 719468) % 146097 = doe at h hsplit hlt ⊢
  generalize hyoe : yoeOf doe = yoe at h ⊢
  simp only [dstart] at h ⊢
  obtain ⟨h1, h2, h3⟩ := h
  generalize hdoy : doe - (365 * yoe + yoe / 4 - yoe / 100) = doy at h3 ⊢
  have hlink : doe = 365 * yoe + yoe / 4 - yoe / 100 + doy := by omega
  by_cases hmp : (5 * doy + 2) / 153 < 10
  · simp only [if_pos hmp]
    have hc1 : ¬((5 * doy + 2) / 153 + 3 ≤ 2) := by omega
    simp only [if_neg hc1]
    refine ⟨by omega, by omega, by omega, by omega, by omega⟩
  · simp only [if_neg hmp]
    have hmp11 : (5 * doy + 2) / 153 ≤ 11 := by omega
    have hc1 : (5 * doy + 2) / 153 - 9 ≤ 2 := by omega
    simp only [if_pos hc1]
    refine ⟨by omega, by omega, by omega, by omega, by omega⟩

theorem isDigitChar_digitChar (n : Nat) : isDigitChar (digitChar n) = true := by
  have h : n % 10 < 10 := Nat.mod_lt _ (by omega)
  unfold digitChar
  generalize hk : n % 10 = k at h ⊢
  interval_cases k <;> decide

theorem digitVal_digitChar (n : Nat) : digitVal (digitChar n) = n % 10 := by
  have h : n % 10 < 10 := Nat.mod_lt _ (by omega)
  unfold digitChar
  generalize hk : n % 10 = k at h ⊢
  interval_cases k <;> decide

set_option maxHeartbeats 1600000 in
theorem isoParse_toISOString (t : Nat) (ht : t < 253402300800000) :
    isoParse (toISOString t) = some t := by
  have hdays : t / 86400000 < 2932897 := by omega
  have hr := daysFromCivil_civilFromDays (t / 86400000)
  obtain ⟨hm1, hm2, hd1, hd2, hy2⟩ := civilFromDays_range (t / 86400000) hdays
  unfold toISOString isoParse pad4 pad3 pad2
  dsimp only
  simp only [List.cons_append, List.nil_append]
  rw [if_pos (by simp [isDigitChar_digitChar])]
  simp only [digitVal_digitChar]
  have hY : 1000 * ((civilFromDays (t / 86400000)).1 / 1000 % 10) +
      100 * ((civilFromDays (t / 86400000)).1 / 100 % 10) +
      10 * ((civilFromDays (t / 86400000)).1 / 10 % 10) +
      (civilFromDays (t / 86400000)).1 % 10 = (civilFromDays (t / 86400000)).1 := by
    omega
  have hMO : 10 * ((civilFromDays (t / 86400000)).2.1 / 10 % 10) +
      (civilFromDays (t / 86400000)).2.1 % 10 = (civilFromDays (t / 86400000)).2.1 := by
    omega
  have hD : 10 * ((civilFromDays (t / 86400000)).2.2 / 10 % 10) +
      (civilFromDays (t / 86400000)).2.2 % 10 = (civilFromDays (t / 86400000)).2.2 := by
    omega
  have hH : 10 * (t / 3600000 % 24 / 10 % 10) + t / 3600000 % 24 % 10 = t / 3600000 % 24 := by
    omega
  have hMI : 10 * (t / 60000 % 60 / 10 % 10) + t / 60000 % 60 % 10 = t / 60000 % 60 := by
    omega
  have hS : 10 * (t / 1000 % 60 / 10 % 10) + t / 1000 % 60 % 10 = t / 1000 % 60 := by
    omega
  have hMS : 100 * (t % 1000 / 100 % 10) + 10 * (t % 1000 / 10 % 10) + t % 1000 % 10 =
      t % 1000 := by
    omega
  rw [hY, hMO, hD, hH, hMI, hS, hMS]
  rw [if_pos ⟨hm1, hm2, hd1, hd2, by omega, by omega, by omega⟩]
  rw [hr]
  simp only [Option.some.injEq]
  omega

/-! ## Gateway helper theorems -/

theorem leadsWith_append (pre s : List Char) (h : leadsWith pre s = true) :
    pre ++ s.drop pre.length = s := by
  induction pre generalizing s with
  | nil => simp
  | cons a as ih =>
    cases s with
    | nil => simp [leadsWith] at h
    | cons b bs =>
      simp only [leadsWith, Bool.and_eq_true, beq_iff_eq] at h
      obtain ⟨hab, h2⟩ := h
      subst hab
      simp only [List.length_cons, List.drop_succ_cons, List.cons_append, List.cons.injEq]
      exact ⟨trivial, ih bs h2⟩

theorem leadsWith_mono (a b s : List Char) (h : leadsWith (a ++ b) s = true) :
    leadsWith a s = true := by
  induction a generalizing s with
  | nil => rfl
  | cons x xs ih =>
    cases s with
    | nil => simp [leadsWith] at h
    | cons y ys =>
      simp only [List.cons_append, leadsWith, Bool.and_eq_true] at h ⊢
      exact ⟨h.1, ih ys h.2⟩

theorem applyPathRewrite_id (p : String) (h : isApiPath p = true) :
    applyPathRewrite p = p := by
  unfold isApiPath at h
  simp only [Bool.or_eq_true] at h
  rcases h with h | h
  · have hp : p = "/api" := by
      exact beq_iff_eq.mp h
    subst hp
    decide
  · have hm : leadsWith "/api".data p.data = true := by
      refine leadsWith_mono "/api".data ['/'] p.data ?_
      rw [show "/api".data ++ ['/'] = "/api/".data from by decide]
      exact h
    unfold applyPathRewrite
    rw [if_pos hm]
    have happ := leadsWith_append _ _ hm
    have hlen : ("/api".data).length = 4 := by decide
    rw [hlen] at happ
    rw [happ]

theorem corsify_header (r : Response) :
    ("Access-Control-Allow-Origin", "*") ∈ (corsify r).headers := by
  unfold corsify
  exact List.mem_cons_self _ _

theorem lookupFile_deployed_health (pj sjs ih : String) :
    lookupFile (deployedFiles pj sjs ih) "health" = none := by
  simp only [deployedFiles, lookupFile]
  rw [if_neg (by decide), if_neg (by decide), if_neg (by decide)]

theorem route_health_of_no_asset (files : List (String × String)) (method p : String)
    (hm : method = "GET") (hp : p = "/health")
    (h : lookupFile files "health" = none) :
    route files method p = Routed.health := by
  subst hm
  subst hp
  have hs : staticLookup files "GET" "/health" = none := by
    unfold staticLookup
    rw [if_pos (Or.inl rfl)]
    rw [if_neg (show ¬("/health" = "/") by decide)]
    have hstr : String.mk ("/health".data.drop 1) = "health" := by decide
    rw [hstr]
    exact h
  unfold route
  rw [hs]
  decide

theorem handle_health_of_no_asset (opts : ProxyOptions) (files : List (String × String))
    (req : Request) (now : Nat) (u : Upstream)
    (hm : req.method = "GET") (hp : req.path = "/health")
    (h : lookupFile files "health" = none) :
    handle opts files req now u = some (corsify (healthResponse now)) := by
  have hroute := route_health_of_no_asset files req.method req.path hm hp h
  unfold handle
  rw [hroute]

/-! ## Claim theorems -/

/-- C1 (counterexample): the claim says a GET /health always reaches the
probe handler and can never be shadowed by a static asset named `health`.
In the source, `express.static` is registered before `app.get('/health')`,
so with an asset named `health` in the asset root the static middleware
answers a GET /health and the probe handler is never reached. -/
theorem c1_counterexample :
    route [("health", "stale asset")] "GET" "/health" = Routed.staticFile "stale asset" ∧
    route [("health", "stale asset")] "GET" "/health" ≠ Routed.health ∧
    handle serverJsProxy [("health", "stale asset")]
      { method := "GET", path := "/health", host := "h", headers := [], body := "" }
      0 Upstream.refuses =
      some (corsify { status := 200, headers := [], body := Json.text "stale asset" }) := by
  refine ⟨by decide, by decide, ?_⟩
  decide

/-- C1 (amended): the health route is registered after the static
middleware, so a GET /health reaches the probe handler exactly when the
asset root holds no file named `health`; under that condition every
GET /health is answered by the probe. -/
theorem c1_health_after_static (opts : ProxyOptions) (files : List (String × String))
    (req : Request) (now : Nat) (u : Upstream)
    (hm : req.method = "GET") (hp : req.path = "/health")
    (h : lookupFile files "health" = none) :
    route files req.method req.path = Routed.health ∧
    handle opts files req now u = some (corsify (healthResponse now)) :=
  ⟨route_health_of_no_asset files req.method req.path hm hp h,
   handle_health_of_no_asset opts files req now u hm hp h⟩

/-- C1 (witness): the amended theorem at a concrete input — empty asset
root, a GET /health request. -/
theorem c1_witness :
    route [] "GET" "/health" = Routed.health ∧
    handle serverJsProxy [] healthRequest 0 Upstream.refuses =
      some (corsify (healthResponse 0)) :=
  c1_health_after_static serverJsProxy [] healthRequest 0 Upstream.refuses rfl rfl rfl

/-- C2 (counterexample): the claim says every transport-level upstream
failure on an /api request yields HTTP 500 with a JSON error body and the
request never hangs past the 10-second timeout.  Neither gateway variant
achieves this for a silent upstream: `src/server-monitor/frontend/server.js`
registers neither `onError` nor `timeout`, so the request hangs forever
and a refused connection is answered by the proxy library's default
handler with a plain-text 504, not a 500 JSON `{error: ...}` body; and
`src/unnamed/part_001`'s `timeout: 10000` is only an incoming-socket idle
timeout, whose expiry destroys the client connection without invoking
`onError`, so no 500 JSON response is written there either. -/
theorem c2_counterexample :
    handle serverJsProxy (deployedFiles "p" "s" "i") apiStatusRequest 0 Upstream.silent =
      none ∧
    proxyResult serverJsProxy Upstream.silent = ProxyOutcome.hang ∧
    proxyResult serverJsProxy Upstream.refuses = ProxyOutcome.answered defaultProxyError ∧
    defaultProxyError.status = 504 ∧
    jsonField defaultProxyError.body "error" = none ∧
    handle (part001Proxy []) (deployedFiles "p" "s" "i") apiStatusRequest 0
      Upstream.silent = none ∧
    proxyResult (part001Proxy []) Upstream.silent = ProxyOutcome.connectionDestroyed := by
  refine ⟨?_, rfl, rfl, rfl, rfl, ?_, rfl⟩ <;> decide

/-- C2 (amended): on any /api request (not shadowed by a static asset)
whose upstream refuses the connection, the `src/unnamed/part_001` gateway
answers through its `onError` callback with HTTP 500 and the JSON body
`{error: '后端服务连接失败'}`.  A silent upstream is answered with that
JSON by neither variant: part_001's `timeout: 10000` only destroys the
idle client connection after the timeout without invoking `onError`
(bounding the upstream call would need `proxyTimeout`, which is not set),
and the server.js variant, with no `timeout` at all, hangs forever. -/
theorem c2_part001_error_handling (env : List (String × String))
    (files : List (String × String)) (req : Request) (now : Nat)
    (hs : staticLookup files req.method req.path = none)
    (hapi : isApiPath req.path = true) :
    handle (part001Proxy env) files req now Upstream.refuses =
      some (corsify proxyErrorResponse) ∧
    proxyErrorResponse.status = 500 ∧
    jsonField proxyErrorResponse.body "error" = some "后端服务连接失败" ∧
    handle (part001Proxy env) files req now Upstream.silent = none ∧
    proxyResult (part001Proxy env) Upstream.silent = ProxyOutcome.connectionDestroyed ∧
    proxyResult serverJsProxy Upstream.silent = ProxyOutcome.hang := by
  have hroute : route files req.method req.path = Routed.proxy := by
    unfold route
    rw [hs, if_pos hapi]
  refine ⟨?_, rfl, by decide, ?_, rfl, rfl⟩
  · unfold handle
    rw [hroute]
    rfl
  · unfold handle
    rw [hroute]
    rfl

/-- C2 (witness): the amended theorem at a concrete input — empty
environment, deployed asset root, `GET /api/status`. -/
theorem c2_witness :
    handle (part001Proxy []) (deployedFiles "p" "s" "i") apiStatusRequest 0
      Upstream.refuses = some (corsify proxyErrorResponse) ∧
    proxyErrorResponse.status = 500 ∧
    jsonField proxyErrorResponse.body "error" = some "后端服务连接失败" ∧
    handle (part001Proxy []) (deployedFiles "p" "s" "i") apiStatusRequest 0
      Upstream.silent = none ∧
    proxyResult (part001Proxy []) Upstream.silent = ProxyOutcome.connectionDestroyed ∧
    proxyResult serverJsProxy Upstream.silent = ProxyOutcome.hang :=
  c2_part001_error_handling [] (deployedFiles "p" "s" "i") apiStatusRequest 0
    (by decide) (by decide)

/-- C3: the two gateway source files hardcode different upstream fallback
targets: `src/unnamed/part_001` falls back to `http://192.168.211.149:5000`
when `BACKEND_URL` is unset, while `src/server-monitor/frontend/server.js`
always uses `http://backend:5000`; the two defaults are not equal. -/
theorem c3_inconsistent_fallback_targets :
    part001Target [] = "http://192.168.211.149:5000" ∧
    serverJsTarget = "http://backend:5000" ∧
    part001Target [] ≠ serverJsTarget := by
  refine ⟨rfl, rfl, ?_⟩
  decide

/-- C4: for every request whose path matches the /api mount, the request
forwarded to the upstream keeps the method, headers and body verbatim,
the path is exactly the original path (the `^/api` to `/api` rewrite is
the identity on mount-matching paths, so the upstream sees the same
sub-path including the /api prefix), and only the Host is rewritten to
the upstream origin when `changeOrigin` is set. -/
theorem c4_forward_verbatim (opts : ProxyOptions) (req : Request)
    (h : isApiPath req.path = true) :
    (forwardRequest opts req).path = req.path ∧
    (forwardRequest opts req).method = req.method ∧
    (forwardRequest opts req).headers = req.headers ∧
    (forwardRequest opts req).body = req.body ∧
    (opts.changeOrigin = true → (forwardRequest opts req).host = targetHost opts.target) := by
  refine ⟨applyPathRewrite_id req.path h, rfl, rfl, rfl, ?_⟩
  intro hco
  unfold forwardRequest
  dsimp only
  rw [hco]
  rfl

/-- C4 (witness): the forwarding theorem at a concrete input —
`GET /api/status` through the server.js proxy options. -/
theorem c4_witness :
    (forwardRequest serverJsProxy apiStatusRequest).path = apiStatusRequest.path ∧
    (forwardRequest serverJsProxy apiStatusRequest).method = apiStatusRequest.method ∧
    (forwardRequest serverJsProxy apiStatusRequest).headers = apiStatusRequest.headers ∧
    (forwardRequest serverJsProxy apiStatusRequest).body = apiStatusRequest.body ∧
    (serverJsProxy.changeOrigin = true →
      (forwardRequest serverJsProxy apiStatusRequest).host = targetHost serverJsProxy.target) :=
  c4_forward_verbatim serverJsProxy apiStatusRequest (by decide)

/-- C5: with the deployed asset root (which holds no file named `health`),
every GET /health request is answered with status 200 and the JSON body
holding exactly `status:"ok"`, `service:"frontend"`, and a `timestamp`
field rendering the current clock reading in valid ISO-8601 format (for
clock readings within the fixed-width-format years up to 9999). -/
theorem c5_health_response (opts : ProxyOptions) (pj sjs ih : String) (req : Request)
    (now : Nat) (u : Upstream) (hm : req.method = "GET") (hp : req.path = "/health")
    (hnow : now < 253402300800000) :
    handle opts (deployedFiles pj sjs ih) req now u = some (corsify (healthResponse now)) ∧
    (healthResponse now).status = 200 ∧
    (healthResponse now).body =
      Json.obj [("status", "ok"), ("service", "frontend"), ("timestamp", toISOString now)] ∧
    isoParse (toISOString now) = some now :=
  ⟨handle_health_of_no_asset opts (deployedFiles pj sjs ih) req now u hm hp
      (lookupFile_deployed_health pj sjs ih),
   rfl, rfl, isoParse_toISOString now hnow⟩

/-- C5 (witness): the health-response theorem at a concrete input. -/
theorem c5_witness :
    handle serverJsProxy (deployedFiles "p" "s" "i") healthRequest 0 Upstream.refuses =
      some (corsify (healthResponse 0)) ∧
    (healthResponse 0).status = 200 ∧
    (healthResponse 0).body =
      Json.obj [("status", "ok"), ("service", "frontend"), ("timestamp", toISOString 0)] ∧
    isoParse (toISOString 0) = some 0 :=
  c5_health_response serverJsProxy "p" "s" "i" healthRequest 0 Upstream.refuses rfl rfl
    (by decide)

/-- C6: whenever the asset root holds `index.html`, a GET / is answered
with status 200 and exactly that file's content (the static middleware's
index resolution and the explicit `/` route serve the same document, so
the index document always wins for the root path). -/
theorem c6_index_served (opts : ProxyOptions) (files : List (String × String))
    (content : String) (req : Request) (now : Nat) (u : Upstream)
    (hm : req.method = "GET") (hp : req.path = "/")
    (h : lookupFile files "index.html" = some content) :
    handle opts files req now u =
      some (corsify { status := 200, headers := [], body := Json.text content }) := by
  have hs : staticLookup files req.method req.path = some content := by
    rw [hm, hp]
    unfold staticLookup
    rw [if_pos (Or.inl rfl), if_pos rfl]
    exact h
  unfold handle route
  rw [hs]

/-- C6 (witness): the spec's scenario — asset root with `index.html`
containing `<html>OK</html>`; GET / answers 200 with exactly that body. -/
theorem c6_witness :
    handle serverJsProxy [("index.html", "<html>OK</html>")]
      { method := "GET", path := "/", host := "h", headers := [], body := "" }
      0 Upstream.refuses =
      some (corsify { status := 200, headers := [], body := Json.text "<html>OK</html>" }) :=
  c6_index_served serverJsProxy [("index.html", "<html>OK</html>")] "<html>OK</html>"
    { method := "GET", path := "/", host := "h", headers := [], body := "" }
    0 Upstream.refuses rfl rfl rfl

/-- C7: across two successive GET /health calls observing clock readings
`t1 ≤ t2` (the system clock does not step backwards between the calls),
both returned timestamps are valid ISO-8601 date-times whose parsed
values are exactly `t1` and `t2`, so the later timestamp is greater than
or equal to the earlier one as a date-time. -/
theorem c7_timestamp_monotone (t1 t2 : Nat) (h12 : t1 ≤ t2)
    (h2 : t2 < 253402300800000) :
    jsonField (healthResponse t1).body "timestamp" = some (toISOString t1) ∧
    isoParse (toISOString t1) = some t1 ∧
    jsonField (healthResponse t2).body "timestamp" = some (toISOString t2) ∧
    isoParse (toISOString t2) = some t2 ∧
    t1 ≤ t2 := by
  have hf : ∀ t : Nat, jsonField (healthResponse t).body "timestamp" =
      some (toISOString t) := by
    intro t
    simp [healthResponse, healthBody, jsonField, lookupFile]
  exact ⟨hf t1, isoParse_toISOString t1 (by omega), hf t2, isoParse_toISOString t2 h2, h12⟩

/-- C7 (witness): the monotonicity theorem at concrete clock readings
5 ms and 7 ms. -/
theorem c7_witness :
    jsonField (healthResponse 5).body "timestamp" = some (toISOString 5) ∧
    isoParse (toISOString 5) = some 5 ∧
    jsonField (healthResponse 7).body "timestamp" = some (toISOString 7) ∧
    isoParse (toISOString 7) = some 7 ∧
    5 ≤ 7 :=
  c7_timestamp_monotone 5 7 (by omega) (by decide)

/-- C8: every response the gateway writes — static file, index document,
health probe, proxied response or 404 — carries the permissive
`Access-Control-Allow-Origin: *` header added by `cors()`. -/
theorem c8_cors_on_every_response (opts : ProxyOptions) (files : List (String × String))
    (req : Request) (now : Nat) (u : Upstream) (r : Response)
    (h : handle opts files req now u = some r) :
    ("Access-Control-Allow-Origin", "*") ∈ r.headers := by
  unfold handle at h
  cases hroute : route files req.method req.path with
  | staticFile c =>
    rw [hroute] at h
    simp only [Option.some.injEq] at h
    subst h
    exact corsify_header _
  | proxy =>
    rw [hroute] at h
    cases hpr : proxyResult opts u with
    | answered pr =>
      rw [hpr] at h
      simp only [Option.some.injEq] at h
      subst h
      exact corsify_header _
    | connectionDestroyed =>
      rw [hpr] at h
      simp at h
    | hang =>
      rw [hpr] at h
      simp at h
  | indexPage =>
    rw [hroute] at h
    cases hlf : lookupFile files "index.html" with
    | none =>
      rw [hlf] at h
      simp only [Option.some.injEq] at h
      subst h
      exact corsify_header _
    | some c =>
      rw [hlf] at h
      simp only [Option.some.injEq] at h
      subst h
      exact corsify_header _
  | health =>
    rw [hroute] at h
    simp only [Option.some.injEq] at h
    subst h
    exact corsify_header _
  | notFound =>
    rw [hroute] at h
    simp only [Option.some.injEq] at h
    subst h
    exact corsify_header _

/-- C8 (witness): the cors theorem applied to a concrete 404 response. -/
theorem c8_witness :
    ("Access-Control-Allow-Origin", "*") ∈
      (corsify { status := 404, headers := [], body := Json.text "Cannot GET" }).headers :=
  c8_cors_on_every_response serverJsProxy []
    { method := "GET", path := "/nope", host := "h", headers := [], body := "" }
    0 Upstream.refuses
    (corsify { status := 404, headers := [], body := Json.text "Cannot GET" })
    (by decide)

/-- C9: the gateway holds no mutable state between requests: handling a
request returns the state (startup configuration and asset root)
unchanged, and handling any other request first does not alter how a
request is handled — each request is processed independently from its own
attributes alone. -/
theorem c9_stateless (st : GatewayState) (req req2 : Request) (now now2 : Nat)
    (u u2 : Upstream) :
    (gatewayStep st req now u).2 = st ∧
    gatewayStep ((gatewayStep st req2 now2 u2).2) req now u = gatewayStep st req now u :=
  ⟨rfl, rfl⟩

/-- C10: the static asset root is the gateway's own source directory, so
the deployed files are all publicly fetchable: a GET /server.js returns
200 with the gateway's own source text and a GET /package.json returns
200 with the manifest. -/
theorem c10_source_files_served (opts : ProxyOptions) (pj sjs ih : String)
    (now : Nat) (u : Upstream) :
    handle opts (deployedFiles pj sjs ih)
      { method := "GET", path := "/server.js", host := "h", headers := [], body := "" }
      now u =
      some (corsify { status := 200, headers := [], body := Json.text sjs }) ∧
    handle opts (deployedFiles pj sjs ih)
      { method := "GET", path := "/package.json", host := "h", headers := [], body := "" }
      now u =
      some (corsify { status := 200, headers := [], body := Json.text pj }) := by
  constructor
  · have hs : staticLookup (deployedFiles pj sjs ih) "GET" "/server.js" = some sjs := by
      unfold staticLookup
      rw [if_pos (Or.inl rfl), if_neg (by decide)]
      rw [show String.mk ("/server.js".data.drop 1) = "server.js" from by decide]
      simp [deployedFiles, lookupFile]
    unfold handle route
    dsimp only
    rw [hs]
  · have hs : staticLookup (deployedFiles pj sjs ih) "GET" "/package.json" = some pj := by
      unfold staticLookup
      rw [if_pos (Or.inl rfl), if_neg (by decide)]
      rw [show String.mk ("/package.json".data.drop 1) = "package.json" from by decide]
      simp [deployedFiles, lookupFile]
    unfold handle route
    dsimp only
    rw [hs]
